import Mathlib

/-!
Verification development for the plex-toolkit core (shallow embedding).

The definitions below are translated from the Python sources:
  src/core/backup.py     (BackupEngine, BackupProgress, BackupManifest)
  src/core/network.py    (NetworkDiscovery, NetworkTransfer, TransferProgress)
  src/core/migration.py  (MigrationManager, MigrationPhase, PHASE_WEIGHTS)
  src/core/database.py   (DatabaseManager.remap_paths)

Modelling conventions:
- Python floats (percentages, mtimes, timestamps) are modelled as rationals.
- The file system is modelled as a value: a list of file entries carrying the
  relative path, base name, size and mtime that os.walk/os.stat would report;
  a single entry per file means sizes and mtimes are static during a run.
- Stateful loops are translated to structural recursion; observable effects
  (service stop/start, status updates, database writes) become event lists.
-/

namespace PlexToolkit

/-! ### Python string ordering

Python compares strings lexicographically by Unicode code point; this is the
comparison applied to `MigrationPhase` value strings by the expression
`p.value < phase.value` in migration.py. -/

/-- Lexicographic comparison of two character lists by code point, the
semantics of Python string comparison. -/
def strLtChars : List Char → List Char → Bool
  | [], [] => false
  | [], _ :: _ => true
  | _ :: _, [] => false
  | a :: as, b :: bs =>
    if a.toNat < b.toNat then true
    else if b.toNat < a.toNat then false
    else strLtChars as bs

/-- Python string comparison s < t. -/
def pyStrLt (s t : String) : Bool := strLtChars s.data t.data

/-! ### backup.py: modes, statuses, progress -/

/-- BackupMode enum from backup.py. -/
inductive BackupMode
  | HOT
  | COLD
  | SMART
  | INCREMENTAL
  | DATABASE_ONLY
deriving DecidableEq, Repr

/-- String value of each BackupMode member, as in backup.py. -/
def BackupMode.value : BackupMode → String
  | .HOT => "hot"
  | .COLD => "cold"
  | .SMART => "smart"
  | .INCREMENTAL => "incremental"
  | .DATABASE_ONLY => "database_only"

/-- BackupStatus enum from backup.py. -/
inductive BackupStatus
  | IDLE
  | PREPARING
  | STOPPING_PLEX
  | COPYING
  | VERIFYING
  | COMPRESSING
  | STARTING_PLEX
  | COMPLETED
  | FAILED
  | CANCELLED
deriving DecidableEq, Repr

/-- BackupProgress dataclass from backup.py (the fields used by the core). -/
structure BackupProgress where
  status : BackupStatus := .IDLE
  phase : String := ""
  current_file : String := ""
  files_total : Nat := 0
  files_done : Nat := 0
  bytes_total : Nat := 0
  bytes_done : Nat := 0
  errors : List String := []
  warnings : List String := []
deriving DecidableEq, Repr

/-- BackupProgress.percent from backup.py: returns 0 when bytes_total is 0,
otherwise bytes_done / bytes_total * 100. -/
def BackupProgress.percent (p : BackupProgress) : ℚ :=
  if p.bytes_total = 0 then 0
  else ((p.bytes_done : ℚ) / (p.bytes_total : ℚ)) * 100

/-- TransferProgress dataclass from network.py (the fields used here). -/
structure TransferProgress where
  total_bytes : Nat := 0
  transferred_bytes : Nat := 0
  current_file : String := ""
  files_total : Nat := 0
  files_done : Nat := 0
  status : String := "idle"
deriving DecidableEq, Repr

/-- TransferProgress.percent from network.py: returns 0 when total_bytes is 0,
otherwise transferred_bytes / total_bytes * 100. -/
def TransferProgress.percent (p : TransferProgress) : ℚ :=
  if p.total_bytes = 0 then 0
  else ((p.transferred_bytes : ℚ) / (p.total_bytes : ℚ)) * 100

/-! ### backup.py: the file tree model and exclusion patterns -/

/-- One regular file of a walked tree: relative path (as os.path.relpath
produces it), base name, size and mtime as reported by os.stat. -/
structure FileEntry where
  rel : String
  name : String
  size : Nat
  mtime : ℚ
deriving DecidableEq, Repr

/-- BackupEngine.EXCLUDE_PATTERNS from backup.py. -/
def EXCLUDE_PATTERNS : List String :=
  ["Cache", "Crash Reports", "Diagnostics", "Logs", "Updates",
   "*.tmp", "*.log", "Transcode", "plexmediaserver.pid", ".plex.pid"]

/-- Semantics of fnmatch.fnmatch for the patterns appearing in
EXCLUDE_PATTERNS: a pattern whose only wildcard is a leading star matches any
name with the remaining suffix; the other patterns are literal names. -/
def fnmatchSimple (pattern name : String) : Bool :=
  match pattern.data with
  | '*' :: suffix => List.isSuffixOf suffix name.data
  | _ => name == pattern

/-- BackupEngine._should_exclude from backup.py. -/
def should_exclude (name : String) : Bool :=
  EXCLUDE_PATTERNS.any (fun p => fnmatchSimple p name)

/-- BackupEngine.estimate_backup_size from backup.py: the walk prunes excluded
directories and skips excluded files, summing os.path.getsize of the rest.
The same pruning is applied by _python_copy, so both operate on the same
candidate list. -/
def estimate_backup_size (files : List FileEntry) : Nat :=
  ((files.filter (fun f => ! should_exclude f.name)).map FileEntry.size).sum

/-! ### backup.py: manifest creation -/

/-- Per-file record stored in a manifest: size and mtime from os.stat. -/
structure ManifestFileInfo where
  size : Nat
  mtime : ℚ
deriving DecidableEq, Repr

/-- BackupManifest dataclass from backup.py; files is the relpath-keyed
mapping, kept as an association list in walk order. -/
structure BackupManifest where
  version : String := "2.0.0"
  created_at : String := ""
  source_platform : String := ""
  source_hostname : String := ""
  machine_identifier : String := ""
  server_name : String := ""
  backup_mode : String := ""
  plex_version : String := ""
  total_size : Nat := 0
  file_count : Nat := 0
  files : List (String × ManifestFileInfo) := []
deriving DecidableEq, Repr

/-- One iteration of the cataloguing loop of BackupEngine._create_manifest:
record relpath with size and mtime, add the size to total_size and bump
file_count. -/
def manifest_catalog_step (m : BackupManifest) (f : FileEntry) : BackupManifest :=
  { m with
    files := m.files ++ [(f.rel, ⟨f.size, f.mtime⟩)],
    total_size := m.total_size + f.size,
    file_count := m.file_count + 1 }

/-- The manifest as first constructed in _create_manifest, before the catalog
walk: metadata set, counters at their dataclass defaults. -/
def manifest_base (mode : BackupMode) : BackupManifest :=
  { backup_mode := mode.value }

/-- BackupEngine._create_manifest from backup.py: walk the destination tree
once and catalogue every regular file. -/
def create_manifest (mode : BackupMode) (destFiles : List FileEntry) : BackupManifest :=
  destFiles.foldl manifest_catalog_step (manifest_base mode)

/-! ### backup.py: _python_copy -/

/-- The incremental skip test of BackupEngine._python_copy: a file already in
the previous manifest is skipped when its stat mtime and size both equal the
recorded values. -/
def incrementalSkip (prev : Option BackupManifest) (f : FileEntry) : Bool :=
  match prev with
  | none => false
  | some m =>
    match m.files.lookup f.rel with
    | none => false
    | some prev_info =>
      decide (f.mtime = prev_info.mtime) && decide (f.size = prev_info.size)

/-- The files that BackupEngine._python_copy attempts to copy: the walk skips
excluded names, and in incremental mode skips files unchanged with respect to
the previous manifest. -/
def python_copy_copied (files : List FileEntry) (incremental : Bool)
    (prev : Option BackupManifest) : List FileEntry :=
  files.filter (fun f =>
    ! should_exclude f.name && ! (incremental && incrementalSkip prev f))

/-- The successive values of progress.bytes_done published by _python_copy:
bytes_done starts at 0 and each successfully copied file adds its size before
_notify_progress runs; copy_ok models which shutil.copy2 calls succeed (a
failed copy appends a warning and publishes nothing). -/
def python_copy_bytes_trace (files : List FileEntry) (incremental : Bool)
    (prev : Option BackupManifest) (copy_ok : FileEntry → Bool) : List Nat :=
  List.scanl (· + ·) 0
    (((python_copy_copied files incremental prev).filter copy_ok).map FileEntry.size)

/-! ### backup.py: _robocopy progress -/

/-- One progress tick of BackupEngine._robocopy: bytes_done advances by one
mebibyte, clamped to bytes_total. -/
def robocopy_step (bytes_total bytes_done : Nat) : Nat :=
  min (bytes_done + 1024 * 1024) bytes_total

/-- bytes_done of the robocopy monitor after n ticks, starting from the fresh
BackupProgress value 0. -/
def robocopy_bytes (bytes_total : Nat) : Nat → Nat
  | 0 => 0
  | n + 1 => robocopy_step bytes_total (robocopy_bytes bytes_total n)

/-! ### backup.py: the COLD-backup control flow -/

/-- Possible exits of the copy step inside _cold_backup: normal completion,
a raised exception, or the early return taken when the cancel flag is set. -/
inductive CopyOutcome
  | success
  | exn
  | cancelled
deriving DecidableEq, Repr

/-- Terminal status assigned by _backup_thread for each copy outcome: an
exception lands in FAILED, a set cancel flag in CANCELLED, otherwise the run
finishes COMPLETED. -/
def terminal_status : CopyOutcome → BackupStatus
  | .success => .COMPLETED
  | .exn => .FAILED
  | .cancelled => .CANCELLED

/-- Observable events of a backup run. -/
inductive BackupEvent
  | statusUpdate (s : BackupStatus)
  | stopPlex
  | startPlex
  | copyStep (o : CopyOutcome)
deriving DecidableEq, Repr

/-- Event semantics of a Python try/finally block: the finally suite runs
after the body on every exit (normal return, early return, or exception), and
the body's outcome is then propagated. -/
def try_finally (body cleanup : List BackupEvent) : List BackupEvent :=
  body ++ cleanup

/-- BackupEngine._cold_backup from backup.py: stop Plex if it was running,
copy inside a try block, and restart Plex in the finally block when it had
been stopped. -/
def cold_backup_events (plex_was_running : Bool) (o : CopyOutcome) : List BackupEvent :=
  (if plex_was_running then [.statusUpdate .STOPPING_PLEX, .stopPlex] else [])
  ++ try_finally
      [.statusUpdate .COPYING, .copyStep o]
      (if plex_was_running then [.statusUpdate .STARTING_PLEX, .startPlex] else [])

/-- BackupEngine._backup_thread from backup.py, specialised to COLD mode: the
PREPARING status, the _cold_backup events, then the terminal status decided
by the copy outcome (the except and cancelled branches, or the completion
path). -/
def backup_thread_cold_events (plex_was_running : Bool) (o : CopyOutcome) : List BackupEvent :=
  [.statusUpdate .PREPARING]
  ++ cold_backup_events plex_was_running o
  ++ [.statusUpdate (terminal_status o)]

/-! ### network.py: discovery registry -/

/-- MachineRole enum from network.py. -/
inductive MachineRole
  | SOURCE
  | TARGET
  | STANDALONE
deriving DecidableEq, Repr

/-- NetworkHost dataclass from network.py (the fields relevant to the
registry); last_seen is a time.time() timestamp. -/
structure NetworkHost where
  ip : String
  hostname : String
  port : Nat := 32400
  machine_id : Option String := none
  server_name : Option String := none
  toolkit_port : Option Nat := none
  role : MachineRole := .STANDALONE
  last_seen : ℚ
deriving DecidableEq, Repr

/-- NetworkDiscovery._cleanup_stale_hosts from network.py: with cutoff
set to now - 60, every registry entry whose last_seen is below the cutoff is
deleted; deleting the collected keys of a dict equals keeping the entries
whose last_seen is not below the cutoff. -/
def cleanup_stale_hosts (now : ℚ) (hosts : List (String × NetworkHost)) :
    List (String × NetworkHost) :=
  hosts.filter (fun kh => ! decide (kh.2.last_seen < now - 60))

/-- The refresh branch of NetworkDiscovery._on_host_discovered: a host whose
key is already registered has last_seen reset to the current time and its
known fields merged additively. -/
def refresh_host (now : ℚ) (existing incoming : NetworkHost) : NetworkHost :=
  { existing with
    last_seen := now,
    server_name := if incoming.server_name.isSome then incoming.server_name
                   else existing.server_name,
    machine_id := if incoming.machine_id.isSome then incoming.machine_id
                  else existing.machine_id,
    toolkit_port := if incoming.toolkit_port.isSome then incoming.toolkit_port
                    else existing.toolkit_port,
    role := if incoming.role ≠ MachineRole.STANDALONE then incoming.role
            else existing.role }

/-! ### network.py: transfer protocol receive side -/

/-- The parsed JSON header of the transfer protocol. -/
structure FileHeader where
  type : String
  name : String
  size : Nat
deriving DecidableEq, Repr

/-- NetworkTransfer.CHUNK_SIZE from network.py. -/
def CHUNK_SIZE : Nat := 1024 * 1024

/-- The receive loop of NetworkTransfer.receive_file. The socket is modelled
by the list of byte chunks successive sock.recv calls deliver; recv truncates
a delivered chunk to the requested length, and an empty chunk (or exhausted
list) is the empty bytes object a closed connection returns, which breaks the
loop. Returns the final received counter. -/
def receive_file_loop (filesize : Nat) : List (List Nat) → Nat → Nat
  | [], received => received
  | chunk :: rest, received =>
    if received < filesize then
      let data := chunk.take (min CHUNK_SIZE (filesize - received))
      if data.length = 0 then received
      else receive_file_loop filesize rest (received + data.length)
    else received

/-- NetworkTransfer.receive_file from network.py: a missing header or a
header whose type is not "file" yields None; otherwise the destination path
is allocated eagerly, the loop above runs, and the filepath is returned.
The result pairs the returned Option with the bytes written. -/
def receive_file (header : Option FileHeader) (chunks : List (List Nat))
    (output_dir : String) : Option String × Nat :=
  match header with
  | none => (none, 0)
  | some h =>
    if h.type ≠ "file" then (none, 0)
    else
      let filepath := output_dir ++ "/" ++ h.name
      let received := receive_file_loop h.size chunks 0
      (some filepath, received)

/-! ### migration.py: phases and weighted progress -/

/-- MigrationPhase enum from migration.py, in definition order. -/
inductive MigrationPhase
  | IDLE
  | INITIALIZING
  | DISCOVERING
  | CONNECTING
  | STOPPING_SOURCE
  | BACKING_UP
  | TRANSFERRING
  | EXTRACTING
  | REMAPPING_PATHS
  | UPDATING_PREFERENCES
  | STOPPING_TARGET
  | RESTORING
  | STARTING_TARGET
  | VERIFYING
  | COMPLETED
  | FAILED
  | CANCELLED
deriving DecidableEq, Repr

/-- String value of each MigrationPhase member, as in migration.py. -/
def MigrationPhase.value : MigrationPhase → String
  | .IDLE => "idle"
  | .INITIALIZING => "initializing"
  | .DISCOVERING => "discovering"
  | .CONNECTING => "connecting"
  | .STOPPING_SOURCE => "stopping_source"
  | .BACKING_UP => "backing_up"
  | .TRANSFERRING => "transferring"
  | .EXTRACTING => "extracting"
  | .REMAPPING_PATHS => "remapping_paths"
  | .UPDATING_PREFERENCES => "updating_preferences"
  | .STOPPING_TARGET => "stopping_target"
  | .RESTORING => "restoring"
  | .STARTING_TARGET => "starting_target"
  | .VERIFYING => "verifying"
  | .COMPLETED => "completed"
  | .FAILED => "failed"
  | .CANCELLED => "cancelled"

/-- Every member of MigrationPhase, in the iteration order of the enum. -/
def allMigrationPhases : List MigrationPhase :=
  [.IDLE, .INITIALIZING, .DISCOVERING, .CONNECTING, .STOPPING_SOURCE,
   .BACKING_UP, .TRANSFERRING, .EXTRACTING, .REMAPPING_PATHS,
   .UPDATING_PREFERENCES, .STOPPING_TARGET, .RESTORING, .STARTING_TARGET,
   .VERIFYING, .COMPLETED, .FAILED, .CANCELLED]

/-- MigrationManager.PHASE_WEIGHTS from migration.py, as the dict literal. -/
def PHASE_WEIGHTS : List (MigrationPhase × Nat) :=
  [(.INITIALIZING, 2), (.DISCOVERING, 3), (.CONNECTING, 2),
   (.STOPPING_SOURCE, 3), (.BACKING_UP, 40), (.TRANSFERRING, 25),
   (.EXTRACTING, 10), (.REMAPPING_PATHS, 5), (.UPDATING_PREFERENCES, 2),
   (.STOPPING_TARGET, 2), (.RESTORING, 15), (.STARTING_TARGET, 2),
   (.VERIFYING, 4)]

/-- PHASE_WEIGHTS.get(p, 0): an unlisted phase contributes 0. -/
def phaseWeight (p : MigrationPhase) : Nat :=
  (PHASE_WEIGHTS.lookup p).getD 0

/-- sum(PHASE_WEIGHTS.values()) as computed in _update_phase and
_update_phase_progress. -/
def total_weight : Nat := (PHASE_WEIGHTS.map Prod.snd).sum

/-- The completed_weight sum of MigrationManager._update_phase and
_update_phase_progress: the weights of all phases p with
p.value < phase.value, a comparison of the enum value strings. -/
def completed_weight (phase : MigrationPhase) : Nat :=
  ((allMigrationPhases.filter
      (fun p => pyStrLt p.value phase.value)).map phaseWeight).sum

/-- overall_percent as published by MigrationManager._update_phase when a
phase is entered (phase_percent is reset to 0 there). -/
def overall_percent_on_entry (phase : MigrationPhase) : ℚ :=
  ((completed_weight phase : ℚ) / (total_weight : ℚ)) * 100

/-- overall_percent as published by MigrationManager._update_phase_progress
for an intra-phase update with the given percent. -/
def overall_percent_in_phase (phase : MigrationPhase) (percent : ℚ) : ℚ :=
  (((completed_weight phase : ℚ) + (phaseWeight phase : ℚ) * percent / 100)
      / (total_weight : ℚ)) * 100

/-- The phases entered, in order, by a successful LOCAL_BACKUP run
(_do_local_backup): INITIALIZING, BACKING_UP, UPDATING_PREFERENCES,
VERIFYING, COMPLETED. -/
def localBackupEntryPhases : List MigrationPhase :=
  [.INITIALIZING, .BACKING_UP, .UPDATING_PREFERENCES, .VERIFYING, .COMPLETED]

/-! ### database.py: remap_paths, and the migration step that calls it -/

/-- Exit of the UPDATE transaction inside DatabaseManager.remap_paths: either
the writes commit, or sqlite3 raises. -/
inductive RemapWriteOutcome
  | ok
  | sqliteError
deriving DecidableEq, Repr

/-- Observable events of DatabaseManager.remap_paths. -/
inductive DbEvent
  | backupCreated
  | writeAttempt
  | backupRestored
deriving DecidableEq, Repr

/-- DatabaseManager.remap_paths from database.py: a missing database yields
False; otherwise a pre-write backup copy is made when backup is set, the
UPDATE statements run, and on sqlite3.Error the backup (which exists exactly
when it was made) is copied back and False is returned. -/
def remap_paths (db_exists : Bool) (backup : Bool) (w : RemapWriteOutcome) :
    List DbEvent × Bool :=
  if ! db_exists then ([], false)
  else
    let pre := if backup then [DbEvent.backupCreated] else []
    match w with
    | .ok => (pre ++ [DbEvent.writeAttempt], true)
    | .sqliteError =>
      (pre ++ [DbEvent.writeAttempt]
           ++ (if backup then [DbEvent.backupRestored] else []), false)

/-- The tail of MigrationManager._do_local_restore from the path-remap step
onward: when mappings are supplied the REMAPPING_PATHS phase is entered and,
if the database file exists, remap_paths is called with its boolean result
discarded; the run then proceeds through UPDATING_PREFERENCES, optionally
STARTING_TARGET, and COMPLETED with result.success set to True. Returns the
phases entered, the database events, and the final success flag. -/
def do_local_restore_tail (mappings_nonempty db_exists stop_plex : Bool)
    (w : RemapWriteOutcome) : List MigrationPhase × List DbEvent × Bool :=
  let (remapPhases, dbEvents) :=
    if mappings_nonempty then
      if db_exists then
        ([MigrationPhase.REMAPPING_PATHS], (remap_paths db_exists true w).1)
      else ([MigrationPhase.REMAPPING_PATHS], [])
    else ([], [])
  (remapPhases
     ++ [MigrationPhase.UPDATING_PREFERENCES]
     ++ (if stop_plex then [MigrationPhase.STARTING_TARGET] else [])
     ++ [MigrationPhase.COMPLETED],
   dbEvents, true)

/-! ### Sample data used by the witness theorems -/

/-- A small source tree: the two files of a minimal Plex data directory. -/
def sampleSourceFiles : List FileEntry :=
  [⟨"Preferences.xml", "Preferences.xml", 120, 1700000000⟩,
   ⟨"Plug-in Support/Databases/com.plexapp.plugins.library.db",
    "com.plexapp.plugins.library.db", 180, 1700000001⟩]

/-- A registry entry last seen 90 seconds before the sample tick at t = 100. -/
def sampleStaleHost : NetworkHost :=
  { ip := "192.168.1.20", hostname := "old-box", last_seen := 10 }

/-- A registry entry last seen 30 seconds before the sample tick at t = 100. -/
def sampleFreshHost : NetworkHost :=
  { ip := "192.168.1.30", hostname := "new-box", last_seen := 70 }

/-- A discovery registry holding the two sample hosts. -/
def sampleRegistry : List (String × NetworkHost) :=
  [("192.168.1.20:32400", sampleStaleHost), ("192.168.1.30:32400", sampleFreshHost)]

/-! ### Helper lemmas -/

/-- Unfolding of the manifest cataloguing fold: counters accumulate the
length and size sum of the walked files, and the files map accumulates one
entry per walked file. -/
lemma create_manifest_foldl (l : List FileEntry) (m : BackupManifest) :
    (l.foldl manifest_catalog_step m).file_count = m.file_count + l.length
    ∧ (l.foldl manifest_catalog_step m).total_size
        = m.total_size + (l.map FileEntry.size).sum
    ∧ (l.foldl manifest_catalog_step m).files
        = m.files ++ l.map (fun g => (g.rel, ManifestFileInfo.mk g.size g.mtime)) := by
  induction l generalizing m with
  | nil => simp
  | cons f fs ih =>
    obtain ⟨h1, h2, h3⟩ := ih (manifest_catalog_step m f)
    simp only [List.foldl_cons, List.map_cons, List.length_cons, List.sum_cons]
    refine ⟨?_, ?_, ?_⟩
    · rw [h1]; simp only [manifest_catalog_step]; omega
    · rw [h2]; simp only [manifest_catalog_step]; omega
    · rw [h3]; simp [manifest_catalog_step]

/-- Looking a file's relative path up in the association list produced by the
manifest catalog returns that file's own record, provided relative paths are
distinct. -/
lemma lookup_manifest_entries (l : List FileEntry) (f : FileEntry)
    (hnd : (l.map FileEntry.rel).Nodup) (hf : f ∈ l) :
    (l.map (fun g => (g.rel, ManifestFileInfo.mk g.size g.mtime))).lookup f.rel
      = some (ManifestFileInfo.mk f.size f.mtime) := by
  induction l with
  | nil => cases hf
  | cons g gs ih =>
    simp only [List.map_cons, List.nodup_cons] at hnd
    rcases List.mem_cons.mp hf with rfl | hf2
    · simp [List.lookup]
    · have hne : (f.rel == g.rel) = false := by
        refine beq_eq_false_iff_ne.mpr fun he => hnd.1 ?_
        exact he ▸ List.mem_map_of_mem FileEntry.rel hf2
      simp only [List.map_cons, List.lookup, hne]
      exact ih hnd.2 hf2

/-- An incremental copy with no previous manifest copies exactly the
non-excluded files. -/
lemma python_copy_first_incremental (files : List FileEntry) :
    python_copy_copied files true none
      = files.filter (fun f => ! should_exclude f.name) := by
  simp [python_copy_copied, incrementalSkip]

/-- The running sums published while adding non-negative sizes form a
non-decreasing chain. -/
lemma chain_le_scanl_add (a : Nat) (l : List Nat) :
    List.Chain' (· ≤ ·) (List.scanl (· + ·) a l) := by
  induction l generalizing a with
  | nil => simp
  | cons x xs ih =>
    rw [List.scanl_cons]
    have h2 := ih (a + x)
    cases xs with
    | nil => simp [List.scanl]
    | cons y ys =>
      rw [List.scanl_cons] at h2 ⊢
      exact List.Chain'.cons (Nat.le_add_right a x) h2

/-- Every intermediate running sum is bounded by the total. -/
lemma scanl_add_le (a : Nat) (l : List Nat) :
    ∀ b ∈ List.scanl (· + ·) a l, b ≤ a + l.sum := by
  induction l generalizing a with
  | nil =>
    intro b hb
    simp only [List.scanl] at hb
    simp only [List.mem_singleton] at hb
    omega
  | cons x xs ih =>
    intro b hb
    rw [List.scanl_cons] at hb
    rcases List.mem_cons.mp hb with rfl | hb2
    · simp only [List.sum_cons]; omega
    · have := ih (a + x) b hb2
      simp only [List.sum_cons] at this ⊢
      omega

/-- Restricting a file list by a further predicate cannot increase the size
sum. -/
lemma sum_sizes_filter_le (q : FileEntry → Bool) (l : List FileEntry) :
    ((l.filter q).map FileEntry.size).sum ≤ (l.map FileEntry.size).sum := by
  induction l with
  | nil => simp
  | cons f fs ih =>
    by_cases hq : q f
    · simp only [List.filter_cons, hq, if_true, List.map_cons, List.sum_cons]
      omega
    · simp only [List.filter_cons, hq, if_false, List.map_cons, List.sum_cons,
        Bool.false_eq_true]
      omega

/-- Filtering by a conjunction keeps a size sum below the sum over the first
conjunct alone. -/
lemma sum_sizes_filter_and_le (p q : FileEntry → Bool) (l : List FileEntry) :
    ((l.filter fun f => p f && q f).map FileEntry.size).sum
      ≤ ((l.filter p).map FileEntry.size).sum := by
  induction l with
  | nil => simp
  | cons f fs ih =>
    by_cases hp : p f
    · by_cases hq : q f
      · simp only [List.filter_cons, hp, hq, Bool.and_self, if_true,
          List.map_cons, List.sum_cons]
        omega
      · simp only [List.filter_cons, hp, hq, Bool.and_false, Bool.false_eq_true,
          if_false, if_true]
        simp only [List.map_cons, List.sum_cons]
        omega
    · simp only [List.filter_cons, hp, Bool.false_and, Bool.false_eq_true, if_false]
      exact ih

/-- The robocopy byte counter never exceeds bytes_total. -/
lemma robocopy_bytes_le_total (bytes_total : Nat) :
    ∀ n, robocopy_bytes bytes_total n ≤ bytes_total := by
  intro n
  cases n with
  | zero => exact Nat.zero_le _
  | succ n =>
    show min _ _ ≤ _
    exact Nat.min_le_right _ _

/-! ### Claim theorems -/

/-- C1: the claim says overall_percent is monotonic non-decreasing across
every phase entry and equals 100 exactly at COMPLETED. The code compares the
phase value strings lexicographically (p.value < phase.value), so along the
actual LOCAL_BACKUP phase sequence the value published on entering BACKING_UP
(0) is strictly below the value published on entering INITIALIZING (1100/23),
and the value on entering COMPLETED is 800/23, not 100. -/
theorem C1_overall_percent_not_monotonic :
    ¬ List.Chain' (· ≤ ·) (localBackupEntryPhases.map overall_percent_on_entry)
    ∧ overall_percent_on_entry MigrationPhase.COMPLETED ≠ 100 := by
  have htw : total_weight = 115 := by decide
  have hI : overall_percent_on_entry MigrationPhase.INITIALIZING = 1100 / 23 := by
    have h1 : completed_weight MigrationPhase.INITIALIZING = 55 := by decide
    rw [overall_percent_on_entry, h1, htw]; norm_num
  have hB : overall_percent_on_entry MigrationPhase.BACKING_UP = 0 := by
    have h1 : completed_weight MigrationPhase.BACKING_UP = 0 := by decide
    rw [overall_percent_on_entry, h1, htw]; norm_num
  have hC : overall_percent_on_entry MigrationPhase.COMPLETED = 800 / 23 := by
    have h1 : completed_weight MigrationPhase.COMPLETED = 40 := by decide
    rw [overall_percent_on_entry, h1, htw]; norm_num
  constructor
  · intro h
    simp only [localBackupEntryPhases, List.map_cons, List.map_nil] at h
    have hle := (List.chain'_cons.mp h).1
    rw [hI, hB] at hle
    norm_num at hle
  · rw [hC]; norm_num

/-- C2: the claim says a connection that ends before the declared size is
reached is reported as a transfer failure. In the code the empty recv result
only breaks the loop, after which the filepath is returned: with a declared
size of 2 bytes and a connection that delivers a single byte before closing,
receive_file returns the filepath (a success value) with 1 byte written. -/
theorem C2_short_receive_returns_success :
    receive_file (some ⟨"file", "library.db", 2⟩) [[65]] "/backup"
      = (some "/backup/library.db", 1)
    ∧ (1 : Nat) < 2 := by
  constructor
  · decide
  · decide

/-- C3 counterexample: the per-phase weight table does not sum to 100. -/
theorem C3_weights_sum_counterexample : ¬ (total_weight = 100) := by
  decide

/-- C3 amended: the static per-phase weight table sums to exactly 115, and
every phase not listed in the table contributes weight 0. -/
theorem C3_weights_sum_amended :
    total_weight = 115
    ∧ ∀ p : MigrationPhase, p ∉ PHASE_WEIGHTS.map Prod.fst → phaseWeight p = 0 := by
  refine ⟨by decide, ?_⟩
  intro p hp
  cases p <;> first | decide | exact absurd (by decide) hp

/-- C3 witness: the amended statement applied to the unlisted IDLE phase. -/
theorem C3_weights_sum_amended_witness :
    phaseWeight MigrationPhase.IDLE = 0 ∧ total_weight = 115 :=
  ⟨C3_weights_sum_amended.2 MigrationPhase.IDLE (by decide),
   C3_weights_sum_amended.1⟩

/-- C4: in a COLD backup where Plex was running and was stopped by the
engine, the startPlex action appears in the run's event trace, before the
terminal status, for every exit of the copy step (success, exception or
cancellation); when Plex was not running no restart is issued. -/
theorem C4_cold_backup_restarts_on_every_exit (o : CopyOutcome) :
    (∃ i j : Nat, i < j
      ∧ (backup_thread_cold_events true o)[i]? = some BackupEvent.startPlex
      ∧ (backup_thread_cold_events true o)[j]?
          = some (BackupEvent.statusUpdate (terminal_status o)))
    ∧ BackupEvent.startPlex ∉ backup_thread_cold_events false o := by
  refine ⟨⟨6, 7, by omega, ?_, ?_⟩, ?_⟩ <;> cases o <;> decide

/-- C5: when the remap write raises sqlite3.Error, remap_paths does restore
the pre-write backup and returns False, but _do_local_restore discards that
result: the run still ends in COMPLETED with success True and never enters
FAILED, contradicting the claim that the failure is fatal to the run. -/
theorem C5_remap_failure_restores_but_run_completes :
    (remap_paths true true RemapWriteOutcome.sqliteError).2 = false
    ∧ DbEvent.backupRestored ∈ (remap_paths true true RemapWriteOutcome.sqliteError).1
    ∧ (do_local_restore_tail true true true RemapWriteOutcome.sqliteError).1.getLast?
        = some MigrationPhase.COMPLETED
    ∧ MigrationPhase.FAILED ∉ (do_local_restore_tail true true true RemapWriteOutcome.sqliteError).1
    ∧ (do_local_restore_tail true true true RemapWriteOutcome.sqliteError).2.2 = true := by
  decide

/-- C6: a second INCREMENTAL run against an unchanged source copies zero
files. With distinct relative paths, every non-excluded source file is found
in the manifest created from the first run's destination tree with its own
(mtime, size) record, so _python_copy skips it; the copy list of the second
run is empty. -/
theorem C6_incremental_second_run_copies_nothing (files : List FileEntry)
    (hnd : (files.map FileEntry.rel).Nodup) :
    (∀ f ∈ files, should_exclude f.name = false →
        (create_manifest BackupMode.INCREMENTAL
            (python_copy_copied files true none)).files.lookup f.rel
          = some (ManifestFileInfo.mk f.size f.mtime))
    ∧ python_copy_copied files true
        (some (create_manifest BackupMode.INCREMENTAL
            (python_copy_copied files true none))) = [] := by
  have hdest : python_copy_copied files true none
      = files.filter (fun f => ! should_exclude f.name) :=
    python_copy_first_incremental files
  have hmf : (create_manifest BackupMode.INCREMENTAL
        (python_copy_copied files true none)).files
      = (files.filter (fun f => ! should_exclude f.name)).map
          (fun g => (g.rel, ManifestFileInfo.mk g.size g.mtime)) := by
    rw [hdest, create_manifest,
      (create_manifest_foldl (files.filter fun f => ! should_exclude f.name)
        (manifest_base BackupMode.INCREMENTAL)).2.2]
    simp [manifest_base]
  have hnd2 : ((files.filter fun f => ! should_exclude f.name).map FileEntry.rel).Nodup :=
    List.Nodup.sublist (List.Sublist.map FileEntry.rel (List.filter_sublist files)) hnd
  have hlook : ∀ f ∈ files, should_exclude f.name = false →
      (create_manifest BackupMode.INCREMENTAL
          (python_copy_copied files true none)).files.lookup f.rel
        = some (ManifestFileInfo.mk f.size f.mtime) := by
    intro f hf hex
    rw [hmf]
    exact lookup_manifest_entries _ f hnd2
      (List.mem_filter.mpr ⟨hf, by simp [hex]⟩)
  refine ⟨hlook, ?_⟩
  rw [python_copy_copied]
  refine List.filter_eq_nil_iff.mpr ?_
  intro f hf
  by_cases hex : should_exclude f.name
  · simp [hex]
  · have hex2 : should_exclude f.name = false := by simpa using hex
    have hl := hlook f hf hex2
    simp [hex2, incrementalSkip, hl]

/-- C6 witness: the second-run copy list is empty on the concrete two-file
sample tree. -/
theorem C6_incremental_second_run_witness :
    (sampleSourceFiles.map FileEntry.rel).Nodup
    ∧ python_copy_copied sampleSourceFiles true
        (some (create_manifest BackupMode.INCREMENTAL
            (python_copy_copied sampleSourceFiles true none))) = [] :=
  ⟨by decide,
   (C6_incremental_second_run_copies_nothing sampleSourceFiles (by decide)).2⟩

/-- C7: a manifest created at the end of a run records file_count equal to
the number of regular files walked under the destination tree, total_size
equal to the sum of their sizes, and file_count equal to the number of
entries of the files map. -/
theorem C7_manifest_counts (mode : BackupMode) (destFiles : List FileEntry) :
    (create_manifest mode destFiles).file_count = destFiles.length
    ∧ (create_manifest mode destFiles).total_size
        = (destFiles.map FileEntry.size).sum
    ∧ (create_manifest mode destFiles).file_count
        = (create_manifest mode destFiles).files.length := by
  obtain ⟨h1, h2, h3⟩ := create_manifest_foldl destFiles (manifest_base mode)
  refine ⟨?_, ?_, ?_⟩
  · rw [create_manifest, h1]; simp [manifest_base]
  · rw [create_manifest, h2]; simp [manifest_base]
  · rw [create_manifest, h1, h3]; simp [manifest_base]

/-- C8: a discovery tick removes every registry entry whose last_seen lies
more than 60 seconds in the past and keeps every entry seen within the last
60 seconds. -/
theorem C8_stale_purged_fresh_retained (now : ℚ)
    (hosts : List (String × NetworkHost)) (key : String) (h : NetworkHost)
    (hmem : (key, h) ∈ hosts) :
    (60 < now - h.last_seen → (key, h) ∉ cleanup_stale_hosts now hosts)
    ∧ (now - h.last_seen ≤ 60 → (key, h) ∈ cleanup_stale_hosts now hosts) := by
  constructor
  · intro hgt hin
    have hp := (List.mem_filter.mp hin).2
    rw [Bool.not_eq_true', decide_eq_false_iff_not, not_lt] at hp
    linarith
  · intro hle
    refine List.mem_filter.mpr ⟨hmem, ?_⟩
    rw [Bool.not_eq_true', decide_eq_false_iff_not, not_lt]
    linarith

/-- C8 witness: at tick time 100, the host last seen at 10 is purged and the
host last seen at 70 is retained. -/
theorem C8_stale_purged_fresh_retained_witness :
    ("192.168.1.20:32400", sampleStaleHost) ∉ cleanup_stale_hosts 100 sampleRegistry
    ∧ ("192.168.1.30:32400", sampleFreshHost) ∈ cleanup_stale_hosts 100 sampleRegistry :=
  ⟨(C8_stale_purged_fresh_retained 100 sampleRegistry "192.168.1.20:32400"
      sampleStaleHost (List.Mem.head _)).1 (by norm_num [sampleStaleHost]),
   (C8_stale_purged_fresh_retained 100 sampleRegistry "192.168.1.30:32400"
      sampleFreshHost (List.Mem.tail _ (List.Mem.head _))).2
     (by norm_num [sampleFreshHost])⟩

/-- C9: in every backup mode the published bytes_done values are monotonic
non-decreasing and bounded by bytes_total: the _python_copy trace is a
non-decreasing chain whose members stay below the estimated total, and the
_robocopy counter is non-decreasing and clamped to bytes_total. -/
theorem C9_bytes_done_monotone_bounded (files : List FileEntry)
    (incremental : Bool) (prev : Option BackupManifest)
    (copy_ok : FileEntry → Bool) (bytes_total n : Nat) :
    List.Chain' (· ≤ ·) (python_copy_bytes_trace files incremental prev copy_ok)
    ∧ (∀ b ∈ python_copy_bytes_trace files incremental prev copy_ok,
        b ≤ estimate_backup_size files)
    ∧ robocopy_bytes bytes_total n ≤ robocopy_bytes bytes_total (n + 1)
    ∧ robocopy_bytes bytes_total n ≤ bytes_total := by
  refine ⟨?_, ?_, ?_, robocopy_bytes_le_total bytes_total n⟩
  · rw [python_copy_bytes_trace]
    exact chain_le_scanl_add 0 _
  · intro b hb
    rw [python_copy_bytes_trace] at hb
    have h1 := scanl_add_le 0 _ b hb
    have h2 := sum_sizes_filter_le copy_ok (python_copy_copied files incremental prev)
    have h3 : ((python_copy_copied files incremental prev).map FileEntry.size).sum
        ≤ estimate_backup_size files := by
      rw [python_copy_copied, estimate_backup_size]
      exact sum_sizes_filter_and_le _ _ files
    omega
  · show _ ≤ min _ _
    exact Nat.le_min.mpr ⟨Nat.le_add_right _ _, robocopy_bytes_le_total bytes_total n⟩

/-- C9 witness: the bound applied to the published value 120 of the sample
run, and the robocopy counter after two ticks against a 300-byte total. -/
theorem C9_bytes_done_witness :
    120 ≤ estimate_backup_size sampleSourceFiles
    ∧ robocopy_bytes 300 2 ≤ 300 :=
  ⟨(C9_bytes_done_monotone_bounded sampleSourceFiles false none
      (fun _ => true) 300 2).2.1 120 (by decide),
   (C9_bytes_done_monotone_bounded sampleSourceFiles false none
      (fun _ => true) 300 2).2.2.2⟩

/-- C10: the percent properties of BackupProgress and TransferProgress are
total: a zero byte total yields 0, and otherwise percent is bytes done over
bytes total times 100. -/
theorem C10_percent_total (bp : BackupProgress) (tp : TransferProgress) :
    (bp.bytes_total = 0 → bp.percent = 0)
    ∧ (bp.bytes_total ≠ 0 →
        bp.percent = (bp.bytes_done : ℚ) / (bp.bytes_total : ℚ) * 100)
    ∧ (tp.total_bytes = 0 → tp.percent = 0)
    ∧ (tp.total_bytes ≠ 0 →
        tp.percent = (tp.transferred_bytes : ℚ) / (tp.total_bytes : ℚ) * 100) := by
  refine ⟨fun h => ?_, fun h => ?_, fun h => ?_, fun h => ?_⟩ <;>
    simp [BackupProgress.percent, TransferProgress.percent, h]

/-- C10 witness: percent evaluated at a zero total and at a 50-of-200
transfer. -/
theorem C10_percent_total_witness :
    ({ bytes_total := 0, bytes_done := 7 } : BackupProgress).percent = 0
    ∧ ({ total_bytes := 200, transferred_bytes := 50 } : TransferProgress).percent
        = (((50 : Nat) : ℚ)) / (((200 : Nat) : ℚ)) * 100 :=
  ⟨(C10_percent_total { bytes_total := 0, bytes_done := 7 } {}).1 rfl,
   (C10_percent_total { bytes_total := 0, bytes_done := 7 }
      { total_bytes := 200, transferred_bytes := 50 }).2.2.2 (by decide)⟩

end PlexToolkit
